import Mathlib

/-!
Verification of the Shein stock monitor (monitor.py).

The development shallowly embeds the monitor's pure decision logic:

* `pyStrip` — Python `str.strip()`;
* `parse_product` — `SheinMonitor._parse_product` (lines 239-267);
* `verify_stock` — `SheinMonitor.verify_stock` (lines 316-375), over an
  abstract observation of the fetched detail page;
* `fetch_products_for_gender` — discovery (lines 269-314), with page
  fetches given by an oracle;
* `mergeFound`, `processResult`, `processResults` — the per-cycle merge
  and verification-result handling of `SheinMonitor.run` (lines 409-486);
* `resetCheck`, `runResetChecks` — the daily 7 AM reset (lines 385-403).

Network responses, JSON parsing and the regex extraction are modelled as
structured observations (`HttpResult`, `PageBody`, `ExtractResult`); the
notifier's delivery outcome is an oracle `deliver`.
-/

set_option linter.unusedVariables false

/-- The whitespace characters removed by Python `str.strip()`. -/
def isPySpace (c : Char) : Bool :=
  c = ' ' || c = '\t' || c = '\n' || c = '\r' || c = '\x0b' || c = '\x0c'

/-- Python `str.strip()` on a list of characters: remove leading and
trailing whitespace. -/
def pyStripList (l : List Char) : List Char :=
  ((l.dropWhile isPySpace).reverse.dropWhile isPySpace).reverse

/-- Python `str(k).strip()` as used at monitor.py lines 415 and 437. -/
def pyStrip (s : String) : String :=
  String.mk (pyStripList s.data)

/-- A normalized product entity, as built by `_parse_product`. -/
structure Product where
  code : String
  name : String
  price : String
  image : String
  url : String
  category : String
deriving DecidableEq, Repr

/-- A persisted stock record: `{'in_stock': ..., 'details': ...}`; the
`details` key is present only for in-stock records. -/
structure StockRecord where
  in_stock : Bool
  details : Option String
deriving DecidableEq, Repr

/-- The persisted mapping of product identifier to stock record
(`stock_state`), modelled as an association list with Python-dict
insert/overwrite semantics. -/
abbrev StateStore := List (String × StockRecord)

/-- Python dict lookup `m[k]` / `m.get(k)` on an association list. -/
def lookupEntry {α : Type} (m : List (String × α)) (k : String) : Option α :=
  match m with
  | [] => none
  | (k', v) :: rest => if k' = k then some v else lookupEntry rest k

/-- Python dict assignment `m[k] = v` on an association list: overwrite
the existing binding, else append. -/
def insertEntry {α : Type} (m : List (String × α)) (k : String) (v : α) :
    List (String × α) :=
  match m with
  | [] => [(k, v)]
  | (k', v') :: rest =>
    if k' = k then (k, v) :: rest else (k', v') :: insertEntry rest k v

/-- Site base URL (`SHEIN_BASE_URL`). -/
def SHEIN_BASE_URL : String := "https://www.sheinindia.in"

/-- A raw listing entry's price object; `displayformattedValue` is
`some` exactly when the JSON key is present. -/
structure RawPrice where
  displayformattedValue : Option String
deriving DecidableEq, Repr

/-- A raw listing entry's color-variant object. -/
structure RawColorVariant where
  outfitPictureURL : Option String
deriving DecidableEq, Repr

/-- One element of a raw listing entry's `images` array. -/
structure RawImage where
  url : Option String
deriving DecidableEq, Repr

/-- A raw listing entry, with `some`/`none` modelling JSON key
presence/absence. -/
structure RawProduct where
  code : Option String
  name : Option String
  retailPrice : Option RawPrice
  offerPrice : Option RawPrice
  fnlColorVariantData : Option RawColorVariant
  images : Option (List RawImage)
  url : Option String
deriving DecidableEq, Repr

/-- `SheinMonitor._parse_product` (monitor.py lines 239-267) as a pure
function: the `(key, entry)` pair written to `products_dict`, or `none`
when the entry is dropped (`if not code: return` — Python falsy covers a
missing key and the empty string). -/
def parse_product (p : RawProduct) (gender : String) : Option (String × Product) :=
  match p.code with
  | none => none
  | some code =>
    if code = "" then none
    else
      let mrp : String :=
        match p.retailPrice.bind (fun rp => rp.displayformattedValue) with
        | some v => v
        | none =>
          match p.offerPrice.bind (fun op => op.displayformattedValue) with
          | some v => v
          | none => "N/A"
      let image : String :=
        match p.fnlColorVariantData.bind (fun d => d.outfitPictureURL) with
        | some u => u
        | none =>
          match p.images with
          | some (i :: _) => i.url.getD ""
          | _ => ""
      some (code,
        { code := code
          name := p.name.getD "Unknown Product"
          price := mrp
          image := image
          url := SHEIN_BASE_URL ++ p.url.getD ("/p/" ++ code)
          category := gender })

/-- One entry of a variant's `variantOptionQualifiers` list. -/
structure Qualifier where
  qualifier : Option String
  value : Option String
deriving DecidableEq, Repr

/-- A variant's `stock` object. -/
structure VariantStock where
  stockLevel : Option Int
  stockLevelStatus : Option String
deriving DecidableEq, Repr

/-- One entry of `variantOptions`. -/
structure Variant where
  stock : Option VariantStock
  variantOptionQualifiers : Option (List Qualifier)
deriving DecidableEq, Repr

/-- `v.get('stock', {}).get('stockLevel', 0)` (line 336). -/
def variantQty (v : Variant) : Int :=
  match v.stock with
  | some s => s.stockLevel.getD 0
  | none => 0

/-- `v.get('stock', {}).get('stockLevelStatus', 'outOfStock')` (line 337). -/
def variantStatus (v : Variant) : String :=
  match v.stock with
  | some s => s.stockLevelStatus.getD "outOfStock"
  | none => "outOfStock"

/-- The size-label loop of lines 340-344: the first qualifier tagged
`size` gives the label (Python renders a missing `value` as `"None"`);
`"Unknown"` when no qualifier is tagged `size`. -/
def sizeLabel (v : Variant) : String :=
  match (v.variantOptionQualifiers.getD []).find?
      (fun q => q.qualifier == some "size") with
  | some q =>
    match q.value with
    | some s => s
    | none => "None"
  | none => "Unknown"

/-- Lines 346-350: the detail string contributed by one variant, or
`none` when the variant is not counted as in stock. -/
def variantDetail (v : Variant) : Option String :=
  if variantQty v > 0 then
    some (sizeLabel v ++ " (" ++ toString (variantQty v) ++ ")")
  else if variantStatus v = "inStock" then
    some (sizeLabel v ++ " (In Stock)")
  else none

/-- Lines 334-355: scan all variants and aggregate the stock verdict. -/
def checkVariants (variants : List Variant) : Bool × String :=
  let in_stock_sizes := variants.filterMap variantDetail
  match in_stock_sizes with
  | [] => (false, "Out of Stock")
  | _ => (true, String.intercalate ", " in_stock_sizes)

/-- `state['product']['productDetails']`; `variantOptions` is `some`
exactly when the key is present (`details.get('variantOptions', [])`). -/
structure ProductDetails where
  variantOptions : Option (List Variant)
deriving DecidableEq, Repr

/-- The parsed `window.__PRELOADED_STATE__` JSON; `productDetails` is
`some` exactly when `'product' in state and 'productDetails' in
state['product']` holds (line 330). -/
structure PreloadedState where
  productDetails : Option ProductDetails
deriving DecidableEq, Repr

/-- Outcome of the regex search plus `json.loads` of lines 326-329. -/
inductive ExtractResult where
  | noMatch
  | parseError
  | parsed (state : PreloadedState)
deriving DecidableEq, Repr

/-- The observable content of a fetched detail-page body:
the extraction outcome, and whether the raw text contains the substring
`"stockLevelStatus":"inStock"` (line 358). -/
structure PageBody where
  extract : ExtractResult
  rawHasInStock : Bool
deriving DecidableEq, Repr

/-- The observable outcome of the detail-page GET of line 322: an HTTP
response with a status code, or a transport exception. -/
inductive HttpResult where
  | response (status : Nat) (body : PageBody)
  | exn
deriving DecidableEq, Repr

/-- `SheinMonitor.verify_stock` (monitor.py lines 316-375): the stock
flag (`none` is the 403 sentinel) and the detail/reason string. -/
def verify_stock (r : HttpResult) : Option Bool × String :=
  match r with
  | .response 200 body =>
    match body.extract with
    | .parsed state =>
      match state.productDetails with
      | some details =>
        let res := checkVariants (details.variantOptions.getD [])
        (some res.1, res.2)
      | none =>
        if body.rawHasInStock then (some false, "Structure Mismatch (OOS Safety)")
        else (some false, "Structure Mismatch")
    | _ => (some false, "No Data")
  | .response 403 _ => (none, "403")
  | .response s _ => (some false, "HTTP " ++ toString s)
  | .exn => (some false, "Error")

/-- A listing page's `pagination` object. -/
structure Pagination where
  totalPages : Option Nat
deriving DecidableEq, Repr

/-- A fetched listing page; `some`/`none` fields model JSON key
presence. -/
structure PageData where
  pagination : Option Pagination
  products : Option (List RawProduct)
deriving DecidableEq, Repr

/-- Lines 281-283: `total_pages` from page 1's metadata, defaulting
to 1. -/
def totalPagesOf (d : PageData) : Nat :=
  match d.pagination with
  | some pg => pg.totalPages.getD 1
  | none => 1

/-- Parse one page's product list into the accumulating dict
(lines 288-290 and 307-308). -/
def parsePageInto (d : PageData) (gender : String)
    (acc : List (String × Product)) : List (String × Product) :=
  (d.products.getD []).foldl (fun a p =>
    match parse_product p gender with
    | some kv => insertEntry a kv.1 kv.2
    | none => a) acc

/-- The body of the remaining-pages loop of lines 300-312: a fetched
page whose data is truthy and has a `products` key is parsed into the
accumulator; a failed or productless page is skipped. -/
def pageStep (fetch : Nat → Option PageData) (gender : String)
    (a : List (String × Product)) (p : Nat) : List (String × Product) :=
  match fetch p with
  | some d =>
    match d.products with
    | some _ => parsePageInto d gender a
    | none => a
  | none => a

/-- `SheinMonitor.fetch_products_for_gender` (lines 269-314). The page
fetch is an oracle: `fetch p = none` models `fetch_page` returning a
falsy value after exhausting its retries. Pages 2..totalPages are merged
in page order (the source merges in completion order; no claim depends
on the merge order). -/
def fetch_products_for_gender (fetch : Nat → Option PageData)
    (gender : String) : List (String × Product) :=
  match fetch 1 with
  | none => []
  | some d1 =>
    let total_pages := totalPagesOf d1
    let acc := parsePageInto d1 gender []
    (List.range' 2 (total_pages - 1)).foldl (pageStep fetch gender) acc

/-- The merge step for a page known to have fetched successfully. -/
def successStep (fetch : Nat → Option PageData) (gender : String)
    (a : List (String × Product)) (p : Nat) : List (String × Product) :=
  match fetch p with
  | some d => parsePageInto d gender a
  | none => a

/-- The spec's description of the discovery output: the merge, in page
order, of the parsed products of exactly those attempted pages whose
fetch succeeded (failed pages are skipped; when page 1 fails no further
page is attempted). -/
def discoveryFromSuccessfulPages (fetch : Nat → Option PageData)
    (gender : String) : List (String × Product) :=
  let attempted : List Nat :=
    match fetch 1 with
    | none => [1]
    | some d1 => 1 :: List.range' 2 (totalPagesOf d1 - 1)
  (attempted.filter (fun p => (fetch p).isSome)).foldl
    (successStep fetch gender) []

/-- Lines 413-416: merge discovered products into `all_found_products`,
keying by the whitespace-trimmed identifier. -/
def mergeFound (acc : List (String × Product))
    (prods : List (String × Product)) : List (String × Product) :=
  prods.foldl (fun a kv => insertEntry a (pyStrip kv.1) kv.2) acc

/-- The mutable state touched while processing one cycle's verification
results (lines 433-486): the persisted store, the per-cycle seen-set
`processed_codes_this_cycle`, and a log of the notification sends as
(trimmed identifier, stock details) events. -/
structure CycleState where
  stock_state : StateStore
  processed : List String
  sent : List (String × String)
deriving DecidableEq, Repr

/-- Handling of one completed verification future (lines 435-486).
`found` is `all_found_products`; `deliver` is the boolean outcome of
`send_telegram_message` for this cycle's single notification attempt per
trimmed identifier. The result `none` models the unhandled `KeyError` of
the dict lookup `all_found_products[raw_code]` at line 443, which sits
outside the `try` block and aborts the cycle loop. -/
def processResult (found : List (String × Product)) (deliver : String → Bool)
    (st : CycleState) (raw_code : String) (res : Option Bool × String) :
    Option CycleState :=
  let code := pyStrip raw_code
  if code ∈ st.processed then some st
  else
    let st1 : CycleState := { st with processed := code :: st.processed }
    match lookupEntry found raw_code with
    | none => none
    | some product =>
      match res.1 with
      | none => some st1
      | some is_in_stock =>
        let prev_state :=
          ((lookupEntry st1.stock_state code).map (fun r => r.in_stock)).getD false
        if is_in_stock then
          if prev_state then some st1
          else
            let st2 : CycleState := { st1 with sent := st1.sent ++ [(code, res.2)] }
            if deliver code then
              some { st2 with
                stock_state := insertEntry st2.stock_state code ⟨true, some res.2⟩ }
            else some st2
        else
          if prev_state then
            some { st1 with
              stock_state := insertEntry st1.stock_state code ⟨false, none⟩ }
          else some st1

/-- Sequential handling of a cycle's completed verification results;
aborts (returns `none`) when one handling step raises the `KeyError`. -/
def processResults (found : List (String × Product)) (deliver : String → Bool) :
    CycleState → List (String × (Option Bool × String)) → Option CycleState
  | st, [] => some st
  | st, (raw_code, res) :: rest =>
    match processResult found deliver st raw_code res with
    | none => none
    | some st' => processResults found deliver st' rest

/-- The Asia/Kolkata local time observed at the top of a cycle: the hour,
and the calendar date encoded as a day ordinal (equal ordinals exactly
for equal dates, ordered chronologically). -/
structure IstTime where
  hour : Nat
  date : Nat
deriving DecidableEq, Repr

/-- The scheduler state relevant to the daily reset: the store, the
`last_reset_date` marker, and a log of the dates on which the reset
(state clearing plus both announcements) fired. -/
structure SchedulerState where
  stock_state : StateStore
  last_reset_date : Option Nat
  reset_log : List Nat
deriving DecidableEq, Repr

/-- The daily 7 AM reset check at the top of one cycle (lines 388-403):
at hour 7 on a date other than `last_reset_date`, clear the store, save,
send both announcements, and set the marker. -/
def resetCheck (now : IstTime) (st : SchedulerState) : SchedulerState :=
  if now.hour = 7 ∧ some now.date ≠ st.last_reset_date then
    { stock_state := []
      last_reset_date := some now.date
      reset_log := st.reset_log ++ [now.date] }
  else st

/-- The reset checks performed across a run of the control loop, one per
cycle, at the given observed times. -/
def runResetChecks (st : SchedulerState) : List IstTime → SchedulerState
  | [] => st
  | t :: rest => runResetChecks (resetCheck t st) rest

/-- Concrete sample data: a variant with positive stock quantity and a
`size` qualifier. -/
def sampleVariantA : Variant :=
  { stock := some { stockLevel := some 2, stockLevelStatus := some "inStock" }
    variantOptionQualifiers := some [{ qualifier := some "size", value := some "M" }] }

/-- Concrete sample data: a variant with zero quantity, status `inStock`,
and no `size` qualifier. -/
def sampleVariantB : Variant :=
  { stock := some { stockLevel := some 0, stockLevelStatus := some "inStock" }
    variantOptionQualifiers := some [] }

/-- Concrete sample data: a detail page whose preloaded state parses and
contains `product.productDetails` with the two sample variants. -/
def sampleBodyParsed : PageBody :=
  { extract := .parsed { productDetails := some { variantOptions := some [sampleVariantA, sampleVariantB] } }
    rawHasInStock := true }

/-- Concrete sample data: a detail page whose preloaded state parses but
lacks the `product.productDetails` path, while the raw body does contain
the `"stockLevelStatus":"inStock"` substring. -/
def sampleBodyMismatch : PageBody :=
  { extract := .parsed { productDetails := none }
    rawHasInStock := true }

/-- Concrete sample data: a discovered product. -/
def sampleProduct : Product :=
  { code := "A1", name := "Tee", price := "499", image := ""
    url := "https://www.sheinindia.in/p/A1", category := "Men" }

/-- Concrete sample data: a raw listing entry with an empty-string
identifier. -/
def sampleRawEmptyCode : RawProduct :=
  { code := some "", name := some "X", retailPrice := none, offerPrice := none
    fnlColorVariantData := none, images := none, url := none }

/-- Concrete sample data: a raw listing entry with identifier `B2`, no
name, no retail price, and an offer price. -/
def sampleRawB : RawProduct :=
  { code := some "B2", name := none, retailPrice := none
    offerPrice := some { displayformattedValue := some "999" }
    fnlColorVariantData := none, images := none, url := none }

theorem lookupEntry_insertEntry_self {α : Type} (m : List (String × α))
    (k : String) (v : α) : lookupEntry (insertEntry m k v) k = some v := by
  induction m with
  | nil => simp [insertEntry, lookupEntry]
  | cons kv rest ih =>
    obtain ⟨k', v'⟩ := kv
    by_cases h : k' = k
    · simp [insertEntry, h, lookupEntry]
    · simp [insertEntry, h, lookupEntry, ih]

theorem lookupEntry_insertEntry_ne {α : Type} (m : List (String × α))
    (k c : String) (v : α) (h : k ≠ c) :
    lookupEntry (insertEntry m k v) c = lookupEntry m c := by
  induction m with
  | nil => simp [insertEntry, lookupEntry, h]
  | cons kv rest ih =>
    obtain ⟨k', v'⟩ := kv
    by_cases hk : k' = k
    · subst hk
      simp [insertEntry, lookupEntry, h]
    · by_cases hc : k' = c
      · subst hc
        simp [insertEntry, hk, lookupEntry]
      · simp [insertEntry, hk, lookupEntry, hc, ih]

theorem lookupEntry_eq_some_mem {α : Type} (m : List (String × α))
    (k : String) (v : α) (h : lookupEntry m k = some v) : (k, v) ∈ m := by
  induction m with
  | nil => simp [lookupEntry] at h
  | cons kv rest ih =>
    obtain ⟨k', v'⟩ := kv
    by_cases hk : k' = k
    · subst hk
      simp [lookupEntry] at h
      subst h
      exact List.mem_cons_self _ _
    · simp [lookupEntry, hk] at h
      exact List.mem_cons_of_mem _ (ih h)

theorem dropWhile_eq_self_of_prefix {α : Type} (p : α → Bool) (u v : List α)
    (hu : u.dropWhile p = u) (hpre : v <+: u) : v.dropWhile p = v := by
  cases v with
  | nil => rfl
  | cons c v' =>
    obtain ⟨t, ht⟩ := hpre
    by_cases hp : p c = true
    · exfalso
      subst ht
      rw [List.cons_append, List.dropWhile_cons_of_pos hp] at hu
      have hlen := (List.dropWhile_sublist (l := v' ++ t) p).length_le
      rw [hu] at hlen
      simp at hlen
    · rw [List.dropWhile_cons_of_neg hp]

theorem dropWhile_dropWhile {α : Type} (p : α → Bool) (l : List α) :
    (l.dropWhile p).dropWhile p = l.dropWhile p := by
  induction l with
  | nil => rfl
  | cons c l ih =>
    by_cases h : p c = true
    · rw [List.dropWhile_cons_of_pos h]
      exact ih
    · rw [List.dropWhile_cons_of_neg h, List.dropWhile_cons_of_neg h]

theorem pyStripList_no_leading (l : List Char) :
    (pyStripList l).dropWhile isPySpace = pyStripList l := by
  apply dropWhile_eq_self_of_prefix isPySpace (l.dropWhile isPySpace)
  · exact dropWhile_dropWhile _ _
  · have h1 : ((l.dropWhile isPySpace).reverse.dropWhile isPySpace) <:+
        (l.dropWhile isPySpace).reverse := List.dropWhile_suffix _
    have h2 := List.reverse_prefix.mpr h1
    rw [List.reverse_reverse] at h2
    exact h2

theorem pyStripList_no_trailing (l : List Char) :
    (pyStripList l).reverse.dropWhile isPySpace = (pyStripList l).reverse := by
  unfold pyStripList
  rw [List.reverse_reverse]
  exact dropWhile_dropWhile _ _

theorem pyStripList_eq_self {l : List Char}
    (h1 : l.dropWhile isPySpace = l)
    (h2 : l.reverse.dropWhile isPySpace = l.reverse) : pyStripList l = l := by
  unfold pyStripList
  rw [h1, h2, List.reverse_reverse]

theorem pyStripList_idem (l : List Char) :
    pyStripList (pyStripList l) = pyStripList l :=
  pyStripList_eq_self (pyStripList_no_leading l) (pyStripList_no_trailing l)

theorem pyStrip_idem (s : String) : pyStrip (pyStrip s) = pyStrip s :=
  congrArg String.mk (pyStripList_idem s.data)

theorem variantDetail_isSome (v : Variant) :
    (variantDetail v).isSome = true ↔
      (variantQty v > 0 ∨ variantStatus v = "inStock") := by
  unfold variantDetail
  by_cases h1 : variantQty v > 0
  · simp [h1]
  · by_cases h2 : variantStatus v = "inStock"
    · simp [h1, h2]
    · simp [h1, h2]

theorem checkVariants_pos (variants : List Variant)
    (h : ∃ v ∈ variants, variantQty v > 0 ∨ variantStatus v = "inStock") :
    checkVariants variants =
      (true, String.intercalate ", " (variants.filterMap variantDetail)) := by
  obtain ⟨v, hv, hq⟩ := h
  have hsome : (variantDetail v).isSome = true := (variantDetail_isSome v).mpr hq
  unfold checkVariants
  cases hfm : variants.filterMap variantDetail with
  | nil =>
    exfalso
    have := (List.filterMap_eq_nil_iff).mp hfm v hv
    rw [this] at hsome
    simp at hsome
  | cons a l => simp

theorem checkVariants_neg (variants : List Variant)
    (h : ∀ v ∈ variants, ¬(variantQty v > 0 ∨ variantStatus v = "inStock")) :
    checkVariants variants = (false, "Out of Stock") := by
  unfold checkVariants
  have hfm : variants.filterMap variantDetail = [] := by
    rw [List.filterMap_eq_nil_iff]
    intro v hv
    have := h v hv
    cases hd : variantDetail v with
    | none => rfl
    | some s =>
      exfalso
      apply this
      apply (variantDetail_isSome v).mp
      rw [hd]
      rfl
  rw [hfm]

/-- Claim C3: for a successfully fetched and parsed detail page,
`verify_stock` counts a variant as in-stock exactly when its stock
quantity is positive or its status flag equals `"inStock"`; its detail
string is `"{size} ({quantity})"` when the quantity is positive and
`"{size} (In Stock)"` otherwise; the aggregate result is `(true,
comma-joined details)` when at least one variant qualifies and `(false,
"Out of Stock")` when none does; the size label comes from the first
qualifier tagged `size` and is `"Unknown"` when no such qualifier
exists. -/
theorem claim_C3 (body : PageBody) (state : PreloadedState)
    (details : ProductDetails)
    (hex : body.extract = .parsed state)
    (hpd : state.productDetails = some details) :
    (∀ v : Variant, (variantDetail v).isSome = true ↔
        (variantQty v > 0 ∨ variantStatus v = "inStock"))
  ∧ (∀ v : Variant, variantQty v > 0 →
        variantDetail v =
          some (sizeLabel v ++ " (" ++ toString (variantQty v) ++ ")"))
  ∧ (∀ v : Variant, ¬variantQty v > 0 → variantStatus v = "inStock" →
        variantDetail v = some (sizeLabel v ++ " (In Stock)"))
  ∧ (∀ v : Variant,
        (v.variantOptionQualifiers.getD []).find?
          (fun q => q.qualifier == some "size") = none →
        sizeLabel v = "Unknown")
  ∧ (∀ (v : Variant) (q : Qualifier) (s : String),
        (v.variantOptionQualifiers.getD []).find?
          (fun q => q.qualifier == some "size") = some q →
        q.value = some s → sizeLabel v = s)
  ∧ ((∃ v ∈ details.variantOptions.getD [],
        variantQty v > 0 ∨ variantStatus v = "inStock") →
      verify_stock (.response 200 body) =
        (some true, String.intercalate ", "
          ((details.variantOptions.getD []).filterMap variantDetail)))
  ∧ ((∀ v ∈ details.variantOptions.getD [],
        ¬(variantQty v > 0 ∨ variantStatus v = "inStock")) →
      verify_stock (.response 200 body) = (some false, "Out of Stock")) := by
  refine ⟨variantDetail_isSome, ?_, ?_, ?_, ?_, ?_, ?_⟩
  · intro v hq
    unfold variantDetail
    simp [hq]
  · intro v hq hs
    unfold variantDetail
    simp [hq, hs]
  · intro v hf
    unfold sizeLabel
    rw [hf]
  · intro v q s hf hv
    unfold sizeLabel
    rw [hf]
    simp [hv]
  · intro hex1
    have hc := checkVariants_pos _ hex1
    simp [verify_stock, hex, hpd, hc]
  · intro hall
    have hc := checkVariants_neg _ hall
    simp [verify_stock, hex, hpd, hc]

/-- Witness for C3 at a concrete parsed page with one positive-quantity
variant (size `M`) and one zero-quantity `inStock` variant without a
size qualifier. -/
theorem claim_C3_witness :
    verify_stock (.response 200 sampleBodyParsed) =
      (some true, "M (2), Unknown (In Stock)") := by
  have h := (claim_C3 sampleBodyParsed
      { productDetails := some { variantOptions := some [sampleVariantA, sampleVariantB] } }
      { variantOptions := some [sampleVariantA, sampleVariantB] } rfl rfl).2.2.2.2.2.1
  have hex1 : ∃ v ∈ ({ variantOptions := some [sampleVariantA, sampleVariantB] :
      ProductDetails }).variantOptions.getD [],
      variantQty v > 0 ∨ variantStatus v = "inStock" := by
    refine ⟨sampleVariantA, by decide, Or.inl (by decide)⟩
  exact (h hex1).trans (by decide)

/-- Claim C4: for a detail page whose embedded state parses but lacks
`product.productDetails`, `verify_stock` returns not-in-stock with
reason `"Structure Mismatch (OOS Safety)"` when the raw body contains
the `"stockLevelStatus":"inStock"` substring and `"Structure Mismatch"`
otherwise; in particular it never returns in-stock. -/
theorem claim_C4 (body : PageBody) (state : PreloadedState)
    (hex : body.extract = .parsed state)
    (hpd : state.productDetails = none) :
    verify_stock (.response 200 body) =
      (some false,
        if body.rawHasInStock then "Structure Mismatch (OOS Safety)"
        else "Structure Mismatch")
  ∧ (verify_stock (.response 200 body)).1 ≠ some true := by
  have h : verify_stock (.response 200 body) =
      (some false,
        if body.rawHasInStock then "Structure Mismatch (OOS Safety)"
        else "Structure Mismatch") := by
    simp only [verify_stock, hex, hpd]
    by_cases hr : body.rawHasInStock <;> simp [hr]
  refine ⟨h, ?_⟩
  rw [h]
  simp

/-- Witness for C4 at a concrete structure-mismatch page containing the
raw in-stock substring. -/
theorem claim_C4_witness :
    verify_stock (.response 200 sampleBodyMismatch) =
      (some false, "Structure Mismatch (OOS Safety)")
  ∧ (verify_stock (.response 200 sampleBodyMismatch)).1 ≠ some true := by
  have h := claim_C4 sampleBodyMismatch { productDetails := none } rfl rfl
  exact ⟨h.1.trans (by decide), h.2⟩

/-- Counterexample to C6 as stated: an entry whose identifier field is
present but the empty string is dropped by the parser (Python's
`if not code` treats the empty string as falsy), so "drops exactly the
entries whose identifier field is absent" fails. -/
theorem claim_C6_counterexample :
    sampleRawEmptyCode.code.isSome = true
  ∧ parse_product sampleRawEmptyCode "Men" = none := by
  constructor
  · rfl
  · decide

/-- Claim C6 (amended): the parser drops an entry exactly when its
identifier field is absent or is the empty string; otherwise it emits a
record keyed by the identifier whose price is the retail-price display
field if present, else the offer-price display field, else `"N/A"`, and
whose name is `"Unknown Product"` when the name field is missing; every
emitted record carries its (non-empty) identifier. -/
theorem claim_C6 (p : RawProduct) (g : String) :
    (parse_product p g = none ↔ (p.code = none ∨ p.code = some ""))
  ∧ (∀ c : String, p.code = some c → c ≠ "" →
      ((parse_product p g).map (fun kv => kv.1) = some c
      ∧ (parse_product p g).map (fun kv => kv.2.code) = some c
      ∧ (parse_product p g).map (fun kv => kv.2.name) =
          some (p.name.getD "Unknown Product")
      ∧ (parse_product p g).map (fun kv => kv.2.price) =
          some ((p.retailPrice.bind (fun r => r.displayformattedValue)).getD
            ((p.offerPrice.bind (fun r => r.displayformattedValue)).getD "N/A"))))
  ∧ (∀ kv : String × Product, parse_product p g = some kv →
      kv.2.code = kv.1 ∧ kv.1 ≠ "") := by
  refine ⟨?_, ?_, ?_⟩
  · cases hc : p.code with
    | none => simp [parse_product, hc]
    | some c =>
      by_cases he : c = ""
      · subst he
        simp [parse_product, hc]
      · simp [parse_product, hc, he]
  · intro c hc hne
    cases hr : p.retailPrice.bind (fun r => r.displayformattedValue) with
    | none =>
      cases ho : p.offerPrice.bind (fun r => r.displayformattedValue) with
      | none => simp [parse_product, hc, hne, hr, ho]
      | some v => simp [parse_product, hc, hne, hr, ho]
    | some v => simp [parse_product, hc, hne, hr]
  · intro kv hkv
    cases hc : p.code with
    | none => simp [parse_product, hc] at hkv
    | some c =>
      by_cases he : c = ""
      · subst he
        simp [parse_product, hc] at hkv
      · simp [parse_product, hc, he] at hkv
        subst hkv
        exact ⟨rfl, he⟩

/-- Witness for the amended C6 at a concrete entry with identifier `B2`,
a missing name and only an offer price. -/
theorem claim_C6_witness :
    (parse_product sampleRawB "Women").map (fun kv => kv.2.price) = some "999"
  ∧ (parse_product sampleRawB "Women").map (fun kv => kv.2.name) =
      some "Unknown Product"
  ∧ (parse_product sampleRawB "Women").map (fun kv => kv.1) = some "B2" := by
  have h := (claim_C6 sampleRawB "Women").2.1 "B2" rfl (by decide)
  exact ⟨h.2.2.2.trans (by decide), h.2.2.1.trans (by decide), h.1⟩

theorem parsePageInto_products_none (d : PageData) (gender : String)
    (acc : List (String × Product)) (h : d.products = none) :
    parsePageInto d gender acc = acc := by
  simp [parsePageInto, h]

theorem pageStep_eq_successStep (fetch : Nat → Option PageData)
    (gender : String) (a : List (String × Product)) (p : Nat) :
    pageStep fetch gender a p = successStep fetch gender a p := by
  cases hq : fetch p with
  | none => simp [pageStep, successStep, hq]
  | some d =>
    cases hp : d.products with
    | none =>
      simp [pageStep, successStep, hq, hp,
        parsePageInto_products_none d gender a hp]
    | some l => simp [pageStep, successStep, hq, hp]

theorem foldl_successStep_filter (fetch : Nat → Option PageData)
    (gender : String) (l : List Nat) (acc : List (String × Product)) :
    l.foldl (successStep fetch gender) acc =
      (l.filter (fun p => (fetch p).isSome)).foldl
        (successStep fetch gender) acc := by
  induction l generalizing acc with
  | nil => rfl
  | cons q l ih =>
    rw [List.foldl_cons, List.filter_cons]
    cases hq : fetch q with
    | none =>
      have hstep : successStep fetch gender acc q = acc := by
        unfold successStep
        rw [hq]
      rw [hstep, if_neg (by simp [hq])]
      exact ih acc
    | some d =>
      rw [if_pos (by simp [hq]), List.foldl_cons]
      exact ih _

/-- Claim C8: for every filter and every fetch outcome, discovery equals
the merge of the parsed products of exactly the attempted pages whose
fetch succeeded: failed pages (after retries) are skipped without
aborting, partial results are returned, and when page 1 fails no further
page is attempted, so the result is the (empty) merge of the successful
pages. -/
theorem claim_C8 (fetch : Nat → Option PageData) (gender : String) :
    fetch_products_for_gender fetch gender =
      discoveryFromSuccessfulPages fetch gender := by
  unfold fetch_products_for_gender discoveryFromSuccessfulPages
  cases h1 : fetch 1 with
  | none =>
    simp [h1]
  | some d1 =>
    simp only [h1]
    rw [List.filter_cons, if_pos (by simp [h1]), List.foldl_cons]
    have hstep1 : successStep fetch gender [] 1 = parsePageInto d1 gender [] := by
      unfold successStep
      rw [h1]
    rw [hstep1]
    rw [List.foldl_ext (pageStep fetch gender) (successStep fetch gender)
      (parsePageInto d1 gender [])
      (fun a b hb => pageStep_eq_successStep fetch gender a b)]
    exact foldl_successStep_filter fetch gender _ _

theorem processResult_seen (found : List (String × Product))
    (deliver : String → Bool) (st : CycleState) (raw_code : String)
    (res : Option Bool × String) (h : pyStrip raw_code ∈ st.processed) :
    processResult found deliver st raw_code res = some st := by
  unfold processResult
  rw [if_pos h]

theorem processResult_keyerr (found : List (String × Product))
    (deliver : String → Bool) (st : CycleState) (raw_code : String)
    (res : Option Bool × String)
    (hseen : pyStrip raw_code ∉ st.processed)
    (hl : lookupEntry found raw_code = none) :
    processResult found deliver st raw_code res = none := by
  simp [processResult, hseen, hl]

theorem processResult_unknown (found : List (String × Product))
    (deliver : String → Bool) (st : CycleState) (raw_code : String)
    (res : Option Bool × String) (product : Product)
    (hseen : pyStrip raw_code ∉ st.processed)
    (hl : lookupEntry found raw_code = some product)
    (hb : res.1 = none) :
    processResult found deliver st raw_code res =
      some { st with processed := pyStrip raw_code :: st.processed } := by
  simp [processResult, hseen, hl, hb]

theorem processResult_newstock_delivered (found : List (String × Product))
    (deliver : String → Bool) (st : CycleState) (raw_code : String)
    (res : Option Bool × String) (product : Product)
    (hseen : pyStrip raw_code ∉ st.processed)
    (hl : lookupEntry found raw_code = some product)
    (hb : res.1 = some true)
    (hprev : ((lookupEntry st.stock_state (pyStrip raw_code)).map
        (fun r => r.in_stock)).getD false = false)
    (hdel : deliver (pyStrip raw_code) = true) :
    processResult found deliver st raw_code res =
      some { stock_state :=
               insertEntry st.stock_state (pyStrip raw_code) ⟨true, some res.2⟩
             processed := pyStrip raw_code :: st.processed
             sent := st.sent ++ [(pyStrip raw_code, res.2)] } := by
  simp [processResult, hseen, hl, hb, hprev, hdel]

theorem processResult_newstock_failed (found : List (String × Product))
    (deliver : String → Bool) (st : CycleState) (raw_code : String)
    (res : Option Bool × String) (product : Product)
    (hseen : pyStrip raw_code ∉ st.processed)
    (hl : lookupEntry found raw_code = some product)
    (hb : res.1 = some true)
    (hprev : ((lookupEntry st.stock_state (pyStrip raw_code)).map
        (fun r => r.in_stock)).getD false = false)
    (hdel : deliver (pyStrip raw_code) = false) :
    processResult found deliver st raw_code res =
      some { stock_state := st.stock_state
             processed := pyStrip raw_code :: st.processed
             sent := st.sent ++ [(pyStrip raw_code, res.2)] } := by
  simp [processResult, hseen, hl, hb, hprev, hdel]

theorem processResult_still_in_stock (found : List (String × Product))
    (deliver : String → Bool) (st : CycleState) (raw_code : String)
    (res : Option Bool × String) (product : Product)
    (hseen : pyStrip raw_code ∉ st.processed)
    (hl : lookupEntry found raw_code = some product)
    (hb : res.1 = some true)
    (hprev : ((lookupEntry st.stock_state (pyStrip raw_code)).map
        (fun r => r.in_stock)).getD false = true) :
    processResult found deliver st raw_code res =
      some { st with processed := pyStrip raw_code :: st.processed } := by
  simp [processResult, hseen, hl, hb, hprev]

theorem processResult_oos_update (found : List (String × Product))
    (deliver : String → Bool) (st : CycleState) (raw_code : String)
    (res : Option Bool × String) (product : Product)
    (hseen : pyStrip raw_code ∉ st.processed)
    (hl : lookupEntry found raw_code = some product)
    (hb : res.1 = some false)
    (hprev : ((lookupEntry st.stock_state (pyStrip raw_code)).map
        (fun r => r.in_stock)).getD false = true) :
    processResult found deliver st raw_code res =
      some { stock_state :=
               insertEntry st.stock_state (pyStrip raw_code) ⟨false, none⟩
             processed := pyStrip raw_code :: st.processed
             sent := st.sent } := by
  simp [processResult, hseen, hl, hb, hprev]

theorem processResult_still_oos (found : List (String × Product))
    (deliver : String → Bool) (st : CycleState) (raw_code : String)
    (res : Option Bool × String) (product : Product)
    (hseen : pyStrip raw_code ∉ st.processed)
    (hl : lookupEntry found raw_code = some product)
    (hb : res.1 = some false)
    (hprev : ((lookupEntry st.stock_state (pyStrip raw_code)).map
        (fun r => r.in_stock)).getD false = false) :
    processResult found deliver st raw_code res =
      some { st with processed := pyStrip raw_code :: st.processed } := by
  simp [processResult, hseen, hl, hb, hprev]

theorem processResult_cases (found : List (String × Product))
    (deliver : String → Bool) (st : CycleState) (raw_code : String)
    (res : Option Bool × String) (st' : CycleState)
    (h : processResult found deliver st raw_code res = some st') :
    (pyStrip raw_code ∈ st.processed ∧ st' = st)
  ∨ (pyStrip raw_code ∉ st.processed
     ∧ st'.processed = pyStrip raw_code :: st.processed
     ∧ ((st'.stock_state = st.stock_state ∧ st'.sent = st.sent)
        ∨ (res.1 = some true ∧ deliver (pyStrip raw_code) = true
           ∧ st'.stock_state =
               insertEntry st.stock_state (pyStrip raw_code) ⟨true, some res.2⟩
           ∧ st'.sent = st.sent ++ [(pyStrip raw_code, res.2)])
        ∨ (res.1 = some true ∧ deliver (pyStrip raw_code) = false
           ∧ st'.stock_state = st.stock_state
           ∧ st'.sent = st.sent ++ [(pyStrip raw_code, res.2)])
        ∨ (res.1 = some false
           ∧ st'.stock_state =
               insertEntry st.stock_state (pyStrip raw_code) ⟨false, none⟩
           ∧ st'.sent = st.sent))) := by
  by_cases hseen : pyStrip raw_code ∈ st.processed
  · rw [processResult_seen found deliver st raw_code res hseen] at h
    cases h
    exact Or.inl ⟨hseen, rfl⟩
  · cases hl : lookupEntry found raw_code with
    | none =>
      rw [processResult_keyerr found deliver st raw_code res hseen hl] at h
      cases h
    | some product =>
      cases hb : res.1 with
      | none =>
        rw [processResult_unknown found deliver st raw_code res product
          hseen hl hb] at h
        cases h
        exact Or.inr ⟨hseen, rfl, Or.inl ⟨rfl, rfl⟩⟩
      | some b =>
        cases hprev : ((lookupEntry st.stock_state (pyStrip raw_code)).map
            (fun r => r.in_stock)).getD false with
        | true =>
          cases b with
          | true =>
            rw [processResult_still_in_stock found deliver st raw_code res
              product hseen hl hb hprev] at h
            cases h
            exact Or.inr ⟨hseen, rfl, Or.inl ⟨rfl, rfl⟩⟩
          | false =>
            rw [processResult_oos_update found deliver st raw_code res
              product hseen hl hb hprev] at h
            cases h
            exact Or.inr ⟨hseen, rfl, Or.inr (Or.inr (Or.inr ⟨rfl, rfl, rfl⟩))⟩
        | false =>
          cases b with
          | true =>
            cases hdel : deliver (pyStrip raw_code) with
            | true =>
              rw [processResult_newstock_delivered found deliver st raw_code
                res product hseen hl hb hprev hdel] at h
              cases h
              exact Or.inr ⟨hseen, rfl, Or.inr (Or.inl ⟨rfl, rfl, rfl, rfl⟩)⟩
            | false =>
              rw [processResult_newstock_failed found deliver st raw_code
                res product hseen hl hb hprev hdel] at h
              cases h
              exact Or.inr ⟨hseen, rfl,
                Or.inr (Or.inr (Or.inl ⟨rfl, rfl, rfl, rfl⟩))⟩
          | false =>
            rw [processResult_still_oos found deliver st raw_code res
              product hseen hl hb hprev] at h
            cases h
            exact Or.inr ⟨hseen, rfl, Or.inl ⟨rfl, rfl⟩⟩

theorem processResult_preserves_other (found : List (String × Product))
    (deliver : String → Bool) (st : CycleState) (raw_code : String)
    (res : Option Bool × String) (st' : CycleState) (c : String)
    (hne : pyStrip raw_code ≠ c)
    (h : processResult found deliver st raw_code res = some st') :
    lookupEntry st'.stock_state c = lookupEntry st.stock_state c
  ∧ (∀ msg : String, (c, msg) ∈ st'.sent ↔ (c, msg) ∈ st.sent) := by
  rcases processResult_cases found deliver st raw_code res st' h with
    ⟨hs, rfl⟩ | ⟨hs, hproc, hor⟩
  · exact ⟨rfl, fun msg => Iff.rfl⟩
  · rcases hor with ⟨hss, hsent⟩ | ⟨hb, hd, hss, hsent⟩ |
      ⟨hb, hd, hss, hsent⟩ | ⟨hb, hss, hsent⟩
    · rw [hss, hsent]
      exact ⟨rfl, fun msg => Iff.rfl⟩
    · rw [hss, hsent]
      refine ⟨lookupEntry_insertEntry_ne _ _ _ _ hne, fun msg => ?_⟩
      simp [Ne.symm hne]
    · rw [hss, hsent]
      refine ⟨rfl, fun msg => ?_⟩
      simp [Ne.symm hne]
    · rw [hss, hsent]
      exact ⟨lookupEntry_insertEntry_ne _ _ _ _ hne, fun msg => Iff.rfl⟩

theorem processResult_mem_processed (found : List (String × Product))
    (deliver : String → Bool) (st : CycleState) (raw_code : String)
    (res : Option Bool × String) (st' : CycleState)
    (h : processResult found deliver st raw_code res = some st') :
    pyStrip raw_code ∈ st'.processed := by
  rcases processResult_cases found deliver st raw_code res st' h with
    ⟨hs, rfl⟩ | ⟨hs, hproc, hor⟩
  · exact hs
  · rw [hproc]
    exact List.mem_cons_self _ _

/-- Claim C9: within one cycle, handling the same verification result a
second time for the same (trimmed) identifier is a no-op — the per-cycle
seen-set makes the second handling return the state unchanged, so at
most one notification and at most one state update happen per
identifier. -/
theorem claim_C9 (found : List (String × Product)) (deliver : String → Bool)
    (st : CycleState) (raw_code : String) (res : Option Bool × String)
    (st' : CycleState)
    (h : processResult found deliver st raw_code res = some st') :
    processResult found deliver st' raw_code res = some st' :=
  processResult_seen found deliver st' raw_code res
    (processResult_mem_processed found deliver st raw_code res st' h)

/-- Witness for C9: a concrete first handling, after which the second
handling of the same result is the identity. -/
theorem claim_C9_witness :
    processResult [("A1", sampleProduct)] (fun x => true)
      ⟨[], ["A1"], []⟩ "A1" (none, "403") = some ⟨[], ["A1"], []⟩ :=
  claim_C9 [("A1", sampleProduct)] (fun x => true) ⟨[], [], []⟩ "A1"
    (none, "403") ⟨[], ["A1"], []⟩ (by decide)

/-- Claim C2: on a not-in-stock → in-stock transition, the store records
`in_stock: true` for the identifier exactly when the notification send
reports delivered; when the notifier fails, the store keeps its previous
value for that identifier (in particular no entry is created for a
previously unknown identifier). -/
theorem claim_C2 (found : List (String × Product)) (deliver : String → Bool)
    (st : CycleState) (raw_code : String) (res : Option Bool × String)
    (product : Product)
    (hseen : pyStrip raw_code ∉ st.processed)
    (hl : lookupEntry found raw_code = some product)
    (hb : res.1 = some true)
    (hprev : ((lookupEntry st.stock_state (pyStrip raw_code)).map
        (fun r => r.in_stock)).getD false = false) :
    (processResult found deliver st raw_code res).map
        (fun st' => ((lookupEntry st'.stock_state (pyStrip raw_code)).map
          (fun r => r.in_stock)).getD false) = some (deliver (pyStrip raw_code))
  ∧ (deliver (pyStrip raw_code) = true →
      (processResult found deliver st raw_code res).map
        (fun st' => lookupEntry st'.stock_state (pyStrip raw_code)) =
          some (some ⟨true, some res.2⟩))
  ∧ (deliver (pyStrip raw_code) = false →
      (processResult found deliver st raw_code res).map
        (fun st' => lookupEntry st'.stock_state (pyStrip raw_code)) =
          some (lookupEntry st.stock_state (pyStrip raw_code))) := by
  cases hdel : deliver (pyStrip raw_code) with
  | true =>
    rw [processResult_newstock_delivered found deliver st raw_code res
      product hseen hl hb hprev hdel]
    refine ⟨?_, fun _ => ?_, fun hcontra => ?_⟩
    · simp [lookupEntry_insertEntry_self]
    · simp [lookupEntry_insertEntry_self]
    · cases hcontra
  | false =>
    rw [processResult_newstock_failed found deliver st raw_code res
      product hseen hl hb hprev hdel]
    refine ⟨?_, fun hcontra => ?_, fun _ => ?_⟩
    · simp [hprev]
    · cases hcontra
    · simp

/-- Witness for C2 at a previously unknown identifier: with a failing
notifier the store still has no entry; with a delivering notifier the
new record is persisted. -/
theorem claim_C2_witness :
    (processResult [("A1", sampleProduct)] (fun x => false) ⟨[], [], []⟩
        "A1" (some true, "M (2)")).map
      (fun st2 => lookupEntry st2.stock_state (pyStrip "A1")) = some none
  ∧ (processResult [("A1", sampleProduct)] (fun x => true) ⟨[], [], []⟩
        "A1" (some true, "M (2)")).map
      (fun st2 => lookupEntry st2.stock_state (pyStrip "A1")) =
        some (some ⟨true, some "M (2)"⟩) := by
  have hf := claim_C2 [("A1", sampleProduct)] (fun x => false) ⟨[], [], []⟩
    "A1" (some true, "M (2)") sampleProduct (by decide) (by decide) rfl
    (by decide)
  have ht := claim_C2 [("A1", sampleProduct)] (fun x => true) ⟨[], [], []⟩
    "A1" (some true, "M (2)") sampleProduct (by decide) (by decide) rfl
    (by decide)
  exact ⟨(hf.2.2 rfl).trans (by decide), ht.2.1 rfl⟩

/-- Claim C7: on an in-stock → not-in-stock transition the store entry is
set to `in_stock: false` and persisted immediately, no notification is
sent (the send log is unchanged), and the outcome does not depend on the
notifier oracle `deliver`, which is universally quantified and absent
from the result. -/
theorem claim_C7 (found : List (String × Product)) (deliver : String → Bool)
    (st : CycleState) (raw_code : String) (res : Option Bool × String)
    (product : Product) (r : StockRecord)
    (hseen : pyStrip raw_code ∉ st.processed)
    (hl : lookupEntry found raw_code = some product)
    (hb : res.1 = some false)
    (hr : lookupEntry st.stock_state (pyStrip raw_code) = some r)
    (hin : r.in_stock = true) :
    processResult found deliver st raw_code res =
      some { stock_state :=
               insertEntry st.stock_state (pyStrip raw_code) ⟨false, none⟩
             processed := pyStrip raw_code :: st.processed
             sent := st.sent }
  ∧ lookupEntry (insertEntry st.stock_state (pyStrip raw_code) ⟨false, none⟩)
      (pyStrip raw_code) = some ⟨false, none⟩ := by
  refine ⟨?_, lookupEntry_insertEntry_self _ _ _⟩
  apply processResult_oos_update found deliver st raw_code res product
    hseen hl hb
  simp [hr, hin]

/-- Witness for C7 at a previously in-stock identifier; the notifier
oracle rejects everything, yet the cleared record is persisted and no
send is logged. -/
theorem claim_C7_witness :
    processResult [("A1", sampleProduct)] (fun x => false)
      ⟨[("A1", ⟨true, some "M (2)"⟩)], [], []⟩ "A1" (some false, "Out of Stock") =
      some ⟨[("A1", ⟨false, none⟩)], ["A1"], []⟩ := by
  have h := claim_C7 [("A1", sampleProduct)] (fun x => false)
    ⟨[("A1", ⟨true, some "M (2)"⟩)], [], []⟩ "A1" (some false, "Out of Stock")
    sampleProduct ⟨true, some "M (2)"⟩ (by decide) (by decide) rfl (by decide)
    rfl
  exact h.1.trans (by decide)

/-- Claim C1: when every completed result for a (trimmed) identifier in a
cycle carries the 403 "unknown" sentinel (`None` stock flag), the cycle
sends no notification for that identifier and leaves its store entry
unchanged; in particular a prior `in_stock: true` record survives the
cycle. -/
theorem claim_C1 (found : List (String × Product)) (deliver : String → Bool)
    (items : List (String × (Option Bool × String))) (st st' : CycleState)
    (c : String)
    (hres : ∀ (raw_code : String) (res : Option Bool × String),
      (raw_code, res) ∈ items → pyStrip raw_code = c → res.1 = none)
    (hrun : processResults found deliver st items = some st') :
    lookupEntry st'.stock_state c = lookupEntry st.stock_state c
  ∧ (∀ msg : String, (c, msg) ∈ st'.sent ↔ (c, msg) ∈ st.sent)
  ∧ (∀ r : StockRecord, lookupEntry st.stock_state c = some r →
      r.in_stock = true → lookupEntry st'.stock_state c = some r) := by
  induction items generalizing st with
  | nil =>
    simp [processResults] at hrun
    subst hrun
    exact ⟨rfl, fun _ => Iff.rfl, fun r hr _ => hr⟩
  | cons item rest ih =>
    obtain ⟨raw, res⟩ := item
    simp only [processResults] at hrun
    cases hp : processResult found deliver st raw res with
    | none =>
      rw [hp] at hrun
      cases hrun
    | some st1 =>
      rw [hp] at hrun
      have hstep : lookupEntry st1.stock_state c = lookupEntry st.stock_state c
          ∧ (∀ msg : String, (c, msg) ∈ st1.sent ↔ (c, msg) ∈ st.sent) := by
        by_cases hc : pyStrip raw = c
        · have hbn : res.1 = none := hres raw res (List.mem_cons_self _ _) hc
          rcases processResult_cases found deliver st raw res st1 hp with
            ⟨hs, rfl⟩ | ⟨hs, hproc, hor⟩
          · exact ⟨rfl, fun _ => Iff.rfl⟩
          · rcases hor with ⟨hss, hsent⟩ | ⟨hb, _, _, _⟩ |
              ⟨hb, _, _, _⟩ | ⟨hb, _, _⟩
            · rw [hss, hsent]
              exact ⟨rfl, fun _ => Iff.rfl⟩
            · rw [hbn] at hb
              cases hb
            · rw [hbn] at hb
              cases hb
            · rw [hbn] at hb
              cases hb
        · exact processResult_preserves_other found deliver st raw res st1 c
            hc hp
      have hrest := ih st1
        (fun raw' res' hm hc' => hres raw' res' (List.mem_cons_of_mem _ hm) hc')
        hrun
      refine ⟨hrest.1.trans hstep.1,
        fun msg => (hrest.2.1 msg).trans (hstep.2 msg),
        fun r hr hin => ?_⟩
      rw [hrest.1.trans hstep.1]
      exact hr

/-- Witness for C1: a single product with a prior `in_stock: true` record
whose verification yields the 403 sentinel; the cycle completes, the
record is unchanged. -/
theorem claim_C1_witness :
    processResults [("A1", sampleProduct)] (fun x => true)
      ⟨[("A1", ⟨true, some "M (2)"⟩)], [], []⟩ [("A1", (none, "403"))] =
      some ⟨[("A1", ⟨true, some "M (2)"⟩)], ["A1"], []⟩
  ∧ lookupEntry [("A1", (⟨true, some "M (2)"⟩ : StockRecord))] "A1" =
      some ⟨true, some "M (2)"⟩ := by
  have h := claim_C1 [("A1", sampleProduct)] (fun x => true)
    [("A1", (none, "403"))] ⟨[("A1", ⟨true, some "M (2)"⟩)], [], []⟩
    ⟨[("A1", ⟨true, some "M (2)"⟩)], ["A1"], []⟩ "A1"
    (by
      intro raw res hm hc
      simp at hm
      rw [hm.2])
    (by decide)
  exact ⟨by decide, h.2.2 ⟨true, some "M (2)"⟩ (by decide) rfl⟩

theorem insertEntry_stripped {α : Type} (k : String) (v : α)
    (hk : pyStrip k = k) :
    ∀ (m : List (String × α)), (∀ kv ∈ m, pyStrip kv.1 = kv.1) →
      ∀ kv ∈ insertEntry m k v, pyStrip kv.1 = kv.1 := by
  intro m
  induction m with
  | nil =>
    intro hm kv hkv
    simp [insertEntry] at hkv
    subst hkv
    exact hk
  | cons kv0 rest ih =>
    intro hm kv hkv
    obtain ⟨k', v'⟩ := kv0
    by_cases hke : k' = k
    · rw [show insertEntry ((k', v') :: rest) k v = (k, v) :: rest from by
        simp [insertEntry, hke]] at hkv
      rcases List.mem_cons.mp hkv with h | h
      · subst h
        exact hk
      · exact hm _ (List.mem_cons_of_mem _ h)
    · rw [show insertEntry ((k', v') :: rest) k v =
          (k', v') :: insertEntry rest k v from by
        simp [insertEntry, hke]] at hkv
      rcases List.mem_cons.mp hkv with h | h
      · subst h
        exact hm _ (List.mem_cons_self _ _)
      · exact ih (fun kv2 h2 => hm kv2 (List.mem_cons_of_mem _ h2)) kv h

theorem mergeFound_stripped :
    ∀ (prods acc : List (String × Product)),
      (∀ kv ∈ acc, pyStrip kv.1 = kv.1) →
      ∀ kv ∈ mergeFound acc prods, pyStrip kv.1 = kv.1 := by
  intro prods
  induction prods with
  | nil => exact fun acc hacc kv hkv => hacc kv hkv
  | cons p rest ih =>
    intro acc hacc kv hkv
    have heq : mergeFound acc (p :: rest) =
        mergeFound (insertEntry acc (pyStrip p.1) p.2) rest := rfl
    rw [heq] at hkv
    exact ih _
      (insertEntry_stripped (pyStrip p.1) p.2 (pyStrip_idem p.1) acc hacc)
      kv hkv

theorem lookup_of_stripped {α : Type} (m : List (String × α)) (raw : String)
    (hm : ∀ kv ∈ m, pyStrip kv.1 = kv.1)
    (h : (lookupEntry m raw).isSome = true) : pyStrip raw = raw := by
  cases hl : lookupEntry m raw with
  | none =>
    rw [hl] at h
    cases h
  | some v => exact hm (raw, v) (lookupEntry_eq_some_mem m raw v hl)

/-- Claim C10: the merged discovery mapping is keyed by trimmed
identifiers, so the raw-identifier lookup of line 443 succeeds only when
the identifier equals its trimmed form; a discovered product whose raw
identifier carries leading or trailing whitespace makes that lookup —
which sits outside the `try` block — raise an unhandled `KeyError` that
aborts the whole cycle loop. -/
theorem claim_C10 :
    (∀ (prods : List (String × Product)) (raw_code : String),
        (lookupEntry (mergeFound [] prods) raw_code).isSome = true →
        pyStrip raw_code = raw_code)
  ∧ (∀ (prods : List (String × Product)) (deliver : String → Bool)
        (st : CycleState) (raw_code : String) (res : Option Bool × String)
        (rest : List (String × (Option Bool × String))),
        pyStrip raw_code ≠ raw_code →
        pyStrip raw_code ∉ st.processed →
        processResults (mergeFound [] prods) deliver st
          ((raw_code, res) :: rest) = none) := by
  have hstr : ∀ prods : List (String × Product),
      ∀ kv ∈ mergeFound ([] : List (String × Product)) prods,
        pyStrip kv.1 = kv.1 :=
    fun prods => mergeFound_stripped prods [] (fun kv hkv => absurd hkv
      (List.not_mem_nil kv))
  constructor
  · intro prods raw h
    exact lookup_of_stripped _ raw (hstr prods) h
  · intro prods deliver st raw res rest hne hseen
    have hl : lookupEntry (mergeFound [] prods) raw = none := by
      cases hl : lookupEntry (mergeFound [] prods) raw with
      | none => rfl
      | some v =>
        exact absurd (lookup_of_stripped _ raw (hstr prods) (by rw [hl]; rfl))
          hne
    simp [processResults,
      processResult_keyerr (mergeFound [] prods) deliver st raw res hseen hl]

/-- Witness for C10: a discovered product whose raw identifier carries a
leading space; the key in the merged mapping is trimmed, the trimmed key
looks up fine, and handling the raw identifier aborts the cycle. -/
theorem claim_C10_witness :
    pyStrip "A1" = "A1"
  ∧ processResults (mergeFound [] [(" A1", sampleProduct)]) (fun x => true)
      ⟨[], [], []⟩ [(" A1", (some true, "M (2)"))] = none := by
  constructor
  · exact claim_C10.1 [(" A1", sampleProduct)] "A1" (by decide)
  · exact claim_C10.2 [(" A1", sampleProduct)] (fun x => true) ⟨[], [], []⟩
      " A1" (some true, "M (2)") [] (by decide) (by decide)

theorem resetCheck_fires (now : IstTime) (st : SchedulerState)
    (h7 : now.hour = 7) (hd : some now.date ≠ st.last_reset_date) :
    resetCheck now st =
      { stock_state := []
        last_reset_date := some now.date
        reset_log := st.reset_log ++ [now.date] } := by
  simp [resetCheck, h7, hd]

theorem resetCheck_skips (now : IstTime) (st : SchedulerState)
    (h : ¬(now.hour = 7 ∧ some now.date ≠ st.last_reset_date)) :
    resetCheck now st = st := by
  simp only [resetCheck]
  rw [if_neg h]

theorem runResetChecks_nodup :
    ∀ (times : List IstTime) (st : SchedulerState),
      List.Pairwise (fun a b => a.date ≤ b.date) times →
      st.reset_log.Nodup →
      (∀ d ∈ st.reset_log, ∃ ld, st.last_reset_date = some ld ∧ d ≤ ld) →
      (∀ ld, st.last_reset_date = some ld → ∀ t ∈ times, ld ≤ t.date) →
      (runResetChecks st times).reset_log.Nodup := by
  intro times
  induction times with
  | nil =>
    intro st _ hnd _ _
    exact hnd
  | cons t rest ih =>
    intro st hpw hnd hbound hfuture
    have hts := (List.pairwise_cons.mp hpw).1
    have hpw' := (List.pairwise_cons.mp hpw).2
    rw [show runResetChecks st (t :: rest) =
      runResetChecks (resetCheck t st) rest from rfl]
    by_cases hc : t.hour = 7 ∧ some t.date ≠ st.last_reset_date
    · rw [resetCheck_fires t st hc.1 hc.2]
      apply ih
      · exact hpw'
      · have htnot : t.date ∉ st.reset_log := by
          intro hmem
          obtain ⟨ld, hld, hle⟩ := hbound t.date hmem
          have hge := hfuture ld hld t (List.mem_cons_self _ _)
          have heq : t.date = ld := le_antisymm hle hge
          exact hc.2 (by rw [heq, hld])
        simp [List.nodup_append, hnd, htnot]
      · intro d hd
        rcases List.mem_append.mp hd with h | h
        · obtain ⟨ld, hld, hle⟩ := hbound d h
          have hge := hfuture ld hld t (List.mem_cons_self _ _)
          exact ⟨t.date, rfl, le_trans hle hge⟩
        · simp at h
          subst h
          exact ⟨t.date, rfl, le_refl _⟩
      · intro ld hld t' ht'
        have hld' : some t.date = some ld := hld
        injection hld' with h
        subst h
        exact hts t' ht'
    · rw [resetCheck_skips t st hc]
      exact ih st hpw' hnd hbound
        (fun ld hld t' ht' => hfuture ld hld t' (List.mem_cons_of_mem _ ht'))

/-- Claim C5: across a run of the control loop started with no
last-reset-date marker, and cycle times observed in chronological order,
the daily reset (state cleared and saved, announcements on both
destinations, logged here as one reset event per firing) executes at
most once per calendar date — the reset-event log has no duplicate date —
and it executes exactly on a cycle whose local hour is 7 while the date
differs from the marker, clearing the store and setting the marker. -/
theorem claim_C5 (times : List IstTime) (s0 : StateStore)
    (hchron : List.Pairwise (fun a b => a.date ≤ b.date) times) :
    (runResetChecks ⟨s0, none, []⟩ times).reset_log.Nodup
  ∧ (∀ (now : IstTime) (st : SchedulerState), now.hour = 7 →
      some now.date ≠ st.last_reset_date →
      resetCheck now st = ⟨[], some now.date, st.reset_log ++ [now.date]⟩)
  ∧ (∀ (now : IstTime) (st : SchedulerState),
      ¬(now.hour = 7 ∧ some now.date ≠ st.last_reset_date) →
      resetCheck now st = st) := by
  refine ⟨?_, fun now st h7 hd => resetCheck_fires now st h7 hd,
    fun now st h => resetCheck_skips now st h⟩
  apply runResetChecks_nodup times ⟨s0, none, []⟩ hchron List.nodup_nil
  · intro d hd
    exact absurd hd (List.not_mem_nil d)
  · intro ld hld
    cases hld

/-- Witness for C5: four chronological cycle times — two in the same
hour-07 window on day 100, one at hour 8, one at hour 7 on day 101; the
reset fires once per date. -/
theorem claim_C5_witness :
    (runResetChecks ⟨[("A1", ⟨true, some "M (2)"⟩)], none, []⟩
      [⟨7, 100⟩, ⟨7, 100⟩, ⟨8, 100⟩, ⟨7, 101⟩]).reset_log.Nodup
  ∧ resetCheck ⟨7, 100⟩ ⟨[("A1", ⟨true, some "M (2)"⟩)], none, []⟩ =
      ⟨[], some 100, [100]⟩ := by
  have h := claim_C5 [⟨7, 100⟩, ⟨7, 100⟩, ⟨8, 100⟩, ⟨7, 101⟩]
    [("A1", ⟨true, some "M (2)"⟩)] (by decide)
  refine ⟨h.1, ?_⟩
  exact (h.2.1 ⟨7, 100⟩ ⟨[("A1", ⟨true, some "M (2)"⟩)], none, []⟩ rfl
    (by decide)).trans (by decide)
